import Mathlib

/-!
Verification of the message-moderation decision pipeline of `plastic.py`.

The pipeline (`on_message`) is embedded as a pure function over an explicit
environment holding the process-wide state the handler reads (blacklist,
flagged-word configuration, auto-moderation configuration).  The external
classification call is represented by its outcome, an `Except Unit String`:
either the remote call failed, or it returned a response text.  The string
operations the source uses (`str.lower`, `str.split()`, `str.strip`,
`str.startswith`) are embedded as structural functions over `List Char`.
-/

namespace Plastic

/-- Lowercasing of a character sequence, one character at a time
(models Python `str.lower` on the relevant alphabet). -/
def pyLowerL (l : List Char) : List Char := l.map Char.toLower

/-- Auxiliary tokenizer: accumulates the current (reversed) word while
scanning, emitting a word at each whitespace boundary.  Empty words are
never emitted, matching Python `str.split()` with no arguments. -/
def splitWsAux : List Char → List Char → List (List Char)
  | cur, [] => if cur.isEmpty then [] else [cur.reverse]
  | cur, c :: cs =>
    if c.isWhitespace then
      if cur.isEmpty then splitWsAux [] cs
      else cur.reverse :: splitWsAux [] cs
    else splitWsAux (c :: cur) cs

/-- Split a character sequence on runs of whitespace, dropping empty
tokens (models Python `str.split()` with no arguments). -/
def splitWs (l : List Char) : List (List Char) := splitWsAux [] l

/-- Models `message.content.lower().split()` from the source: lowercase
the content, then split it on whitespace. -/
def tokens (content : String) : List String :=
  (splitWs (pyLowerL content.toList)).map (fun cs => String.mk cs)

/-- Models the list comprehension of line 137 of the source:
`[word for word in config.get("words", []) if word in
message.content.lower().split()]`. -/
def flagged_words_in_message (words : List String) (content : String) : List String :=
  words.filter (fun w => (tokens content).contains w)

/-- Strip leading and trailing whitespace (models Python `str.strip()`
with no arguments). -/
def pyTrim (l : List Char) : List Char :=
  ((l.dropWhile Char.isWhitespace).reverse.dropWhile Char.isWhitespace).reverse

/-- Does the first list start with the second one (models Python
`str.startswith`)? -/
def startsWithL : List Char → List Char → Bool
  | _, [] => true
  | [], _ :: _ => false
  | a :: as, b :: bs => a == b && startsWithL as bs

/-- Outcome of the remote Gemini call in `is_offensive_content`: either
the call raised (any exception), or it produced a response text. -/
abbrev ClassifierResponse := Except Unit String

/-- Models `is_offensive_content` from the source (lines 72-88), as a
function of the remote call outcome: on success the response text is
stripped, lowercased, and tested for the "yes" head; on any exception
the function returns `False`. -/
def is_offensive_content (resp : ClassifierResponse) : Bool :=
  match resp with
  | .error _ => false
  | .ok text => startsWithL (pyLowerL (pyTrim text.toList)) "yes".toList

/-- Per-guild flagged-word configuration as the source reads it from
`bot.flagged_words[guild_id]` (a JSON object accessed with `.get`):
`sync_global` defaults to `False`, `channel` and `message` may be absent,
`words` defaults to `[]`. -/
structure FlaggedConfig where
  sync_global : Bool
  channel : Option Nat
  words : List String
  message : Option String
deriving DecidableEq

/-- Process-wide state read by the `on_message` handler: `bot.blacklist`,
`bot.flagged_words` and `auto_moderation_config`. -/
structure Env where
  blacklist : List Nat
  flagged_words : List (Nat × FlaggedConfig)
  auto_moderation_config : List (Nat × Bool)
deriving DecidableEq

/-- The fields of the incoming Discord message that `on_message` reads. -/
structure Msg where
  authorId : Nat
  authorIsBot : Bool
  authorMention : String
  guildId : Option Nat
  channelId : Nat
  content : String
deriving DecidableEq

/-- The moderation decision the handler takes on a message: leave it
alone, or delete it and warn the author. -/
inductive Decision where
  | noAction
  | deleteAndWarn (reason : String) (warningText : String)
deriving DecidableEq

/-- Observable outcome of one run of `on_message`: the moderation
decision, whether the classification service was invoked, and whether the
message was handed to `bot.process_commands`. -/
structure RunResult where
  decision : Decision
  classifierCalled : Bool
  processCommands : Bool
deriving DecidableEq

/-- The fast-reject test at the top of `on_message` (line 107):
`not message.guild or message.author.bot or message.author.id in
bot.blacklist`. -/
def fastReject (env : Env) (msg : Msg) : Bool :=
  msg.guildId.isNone || msg.authorIsBot || env.blacklist.contains msg.authorId

/-- The applicability test of the guild flagged-word rule
(lines 134-136): `is_global = config.get("sync_global", False)`;
`is_correct_channel = not is_global and config.get("channel") ==
message.channel.id`; the rule applies when `is_global or
is_correct_channel`. -/
def ruleApplicable (config : FlaggedConfig) (channelId : Nat) : Bool :=
  let is_global := config.sync_global
  let is_correct_channel :=
    !is_global && (match config.channel with
                   | some c => c == channelId
                   | none => false)
  is_global || is_correct_channel

/-- The flagged-word branch of `on_message` (lines 132-148) as a
decision: fires when the guild has a flagged-word config, the rule is
applicable to the message channel, and some flagged word occurs among
the message tokens. -/
def flaggedDecision (env : Env) (gid : Nat) (msg : Msg) : Decision :=
  match env.flagged_words.lookup gid with
  | none => .noAction
  | some config =>
    if ruleApplicable config msg.channelId then
      if (flagged_words_in_message config.words msg.content).isEmpty then
        .noAction
      else
        .deleteAndWarn "flagged-word"
          (msg.authorMention ++ " " ++ config.message.getD "A flagged word was detected.")
    else .noAction

/-- The fixed warning text the auto-moderation branch posts after a
successful deletion (lines 118-121). -/
def autoModWarningText (mention : String) : String :=
  mention ++ " Your message was removed because it contained offensive content."

/-- The `on_message` handler (lines 106-150) as a function of the state
it reads, the outcome of the (potential) classification call, and the
message.  Returns the moderation decision together with whether the
classifier was invoked and whether command processing ran. -/
def on_message (env : Env) (resp : ClassifierResponse) (msg : Msg) : RunResult :=
  match msg.guildId with
  | none => ⟨.noAction, false, false⟩
  | some gid =>
    if msg.authorIsBot || env.blacklist.contains msg.authorId then
      ⟨.noAction, false, false⟩
    else
      let is_moderation_enabled := (env.auto_moderation_config.lookup gid).getD false
      if is_moderation_enabled && is_offensive_content resp then
        ⟨.deleteAndWarn "offensive-content" (autoModWarningText msg.authorMention),
         is_moderation_enabled, false⟩
      else
        match flaggedDecision env gid msg with
        | .noAction => ⟨.noAction, is_moderation_enabled, true⟩
        | d => ⟨d, is_moderation_enabled, false⟩

/-- Outcome of the `message.delete()` call performed while executing a
DeleteAndWarn decision: success, a Forbidden error (missing permission),
or a NotFound error (message already gone). -/
inductive DeleteOutcome where
  | ok
  | forbidden
  | notFound
deriving DecidableEq

/-- A `channel.send` performed while executing a decision; `ephemeral`
records whether the send carried `delete_after=10`. -/
structure SendAction where
  text : String
  ephemeral : Bool
deriving DecidableEq

/-- Sends performed by the auto-moderation branch (lines 116-128) for
each outcome of `message.delete()`: success posts the removal notice
with `delete_after=10`; `Forbidden` posts the could-not-delete notice
without `delete_after`; `NotFound` is swallowed by `pass`. -/
def execAutoModDelete (mention : String) (o : DeleteOutcome) : List SendAction :=
  match o with
  | .ok => [⟨autoModWarningText mention, true⟩]
  | .forbidden => [⟨mention ++ " Offensive content detected but could not delete.", false⟩]
  | .notFound => []

/-- Sends performed by the flagged-word branch (lines 141-147) for each
outcome of `message.delete()`: success posts the response message with
`delete_after=10`; `Forbidden` posts the same response message without
`delete_after`; `NotFound` is swallowed by `pass`. -/
def execFlaggedDelete (responseMessage : String) (o : DeleteOutcome) : List SendAction :=
  match o with
  | .ok => [⟨responseMessage, true⟩]
  | .forbidden => [⟨responseMessage, false⟩]
  | .notFound => []

/-- Does the guild flagged-word rule fire on this message (applicable
and at least one flagged word present among the tokens)? -/
def flaggedRuleFires (env : Env) (gid : Nat) (msg : Msg) : Bool :=
  match env.flagged_words.lookup gid with
  | none => false
  | some config =>
    ruleApplicable config msg.channelId &&
      !(flagged_words_in_message config.words msg.content).isEmpty

/-- A character sequence begins with the affirmative token "yes"
case-insensitively. -/
def beginsWithYesCI (l : List Char) : Prop :=
  ∃ c1 c2 c3 rest, l = c1 :: c2 :: c3 :: rest ∧
    c1.toLower = 'y' ∧ c2.toLower = 'e' ∧ c3.toLower = 's'

/-- The pipeline consumes the classification outcome only through the
boolean that `is_offensive_content` computes from it. -/
theorem on_message_congr_classifier (env : Env) (r1 r2 : ClassifierResponse) (msg : Msg)
    (h : is_offensive_content r1 = is_offensive_content r2) :
    on_message env r1 msg = on_message env r2 msg := by
  cases hg : msg.guildId <;> simp [on_message, hg, h]

/-- When the flagged-word rule does not fire, the flagged-word branch
decides NoAction. -/
theorem flaggedDecision_noAction_of_not_fires (env : Env) (gid : Nat) (msg : Msg)
    (h : flaggedRuleFires env gid msg = false) :
    flaggedDecision env gid msg = .noAction := by
  unfold flaggedRuleFires at h
  unfold flaggedDecision
  cases hl : env.flagged_words.lookup gid with
  | none => rfl
  | some config =>
    rw [hl] at h
    simp only [Bool.and_eq_false_iff, Bool.not_eq_false] at h
    rcases h with h | h
    · simp [h]
    · simp at h
      simp [h]

/-- Over lowercased characters, the startswith-yes test holds exactly
when the sequence begins with "yes" case-insensitively. -/
theorem startsWithL_yes_iff (l : List Char) :
    startsWithL (pyLowerL l) ('y' :: 'e' :: 's' :: []) = true ↔ beginsWithYesCI l := by
  match l with
  | [] => simp [pyLowerL, startsWithL, beginsWithYesCI]
  | [a] => simp [pyLowerL, startsWithL, beginsWithYesCI]
  | [a, b] => simp [pyLowerL, startsWithL, beginsWithYesCI]
  | a :: b :: c :: rest =>
    simp only [pyLowerL, List.map_cons, startsWithL, Bool.and_eq_true, beq_iff_eq,
      beginsWithYesCI, List.cons.injEq]
    constructor
    · rintro ⟨ha, hb, hc, -⟩
      exact ⟨a, b, c, rest, ⟨rfl, rfl, rfl, rfl⟩, ha, hb, hc⟩
    · rintro ⟨c1, c2, c3, rest2, ⟨h1, h2, h3, h4⟩, hy, he, hs⟩
      subst h1; subst h2; subst h3; subst h4
      refine ⟨hy, he, hs, ?_⟩
      cases rest <;> trivial

/-- C1: with auto-moderation enabled and an offensive classification, the
decision is DeleteAndWarn with reason offensive-content, and the
flagged-word configuration of the guild is never consulted: the decision
is the same whatever that configuration holds. -/
theorem offensive_short_circuit (env : Env) (resp : ClassifierResponse) (msg : Msg) (gid : Nat)
    (hg : msg.guildId = some gid) (hbot : msg.authorIsBot = false)
    (hbl : env.blacklist.contains msg.authorId = false)
    (hen : (env.auto_moderation_config.lookup gid).getD false = true)
    (hoff : is_offensive_content resp = true) :
    (on_message env resp msg).decision =
      .deleteAndWarn "offensive-content" (autoModWarningText msg.authorMention) ∧
    ∀ fw : List (Nat × FlaggedConfig),
      (on_message (Env.mk env.blacklist fw env.auto_moderation_config) resp msg).decision =
        .deleteAndWarn "offensive-content" (autoModWarningText msg.authorMention) := by
  have hbl2 : msg.authorId ∉ env.blacklist := by simpa using hbl
  constructor
  · simp [on_message, hg, hbot, hbl2, hen, hoff]
  · intro fw
    simp [on_message, hg, hbot, hbl2, hen, hoff]

/-- Witness for C1: a concrete guild with auto-moderation on, an
offensive classification, and a flagged rule that would also match. -/
theorem offensive_short_circuit_witness :
    (on_message (Env.mk [] [(1, FlaggedConfig.mk true none ["hello"] none)] [(1, true)])
        (.ok "yes") (Msg.mk 5 false "@u" (some 1) 7 "hello")).decision =
      .deleteAndWarn "offensive-content" (autoModWarningText "@u") :=
  (offensive_short_circuit (Env.mk [] [(1, FlaggedConfig.mk true none ["hello"] none)] [(1, true)])
    (.ok "yes") (Msg.mk 5 false "@u" (some 1) 7 "hello") 1
    rfl rfl (by decide) (by decide) (by decide)).1

/-- C2: a failed classification call yields exactly the run that a
not-offensive classification yields — the pipeline falls through to
flagged-word checking and the failure is not propagated. -/
theorem classifier_failure_degrades (env : Env) (msg : Msg) :
    on_message env (.error ()) msg = on_message env (.ok "no") msg :=
  on_message_congr_classifier env (.error ()) (.ok "no") msg rfl

/-- C3: a bot author, a missing guild, or a blacklisted author makes the
handler return immediately: the decision is NoAction, the classifier is
not invoked, and commands are not processed. -/
theorem fast_reject_no_classification (env : Env) (resp : ClassifierResponse) (msg : Msg)
    (h : msg.authorIsBot = true ∨ msg.guildId = none ∨
      env.blacklist.contains msg.authorId = true) :
    on_message env resp msg = RunResult.mk .noAction false false := by
  cases hg : msg.guildId with
  | none => simp [on_message, hg]
  | some gid =>
    rcases h with h | h | h
    · simp [on_message, hg, h]
    · rw [hg] at h; cases h
    · have hmem : msg.authorId ∈ env.blacklist := by simpa using h
      simp [on_message, hg, hmem]

/-- Witness for C3: a bot-authored message is fast-rejected. -/
theorem fast_reject_no_classification_witness :
    on_message (Env.mk [] [] []) (.ok "yes") (Msg.mk 5 true "@u" (some 1) 7 "hi") =
      RunResult.mk .noAction false false :=
  fast_reject_no_classification (Env.mk [] [] []) (.ok "yes")
    (Msg.mk 5 true "@u" (some 1) 7 "hi") (Or.inl rfl)

/-- C4: flagged-word matching is exact whitespace-token equality on the
lowercased content: a rule matches iff some token of the lowercased,
whitespace-split content equals a rule word; "I HATE you" matches the
flagged word "hate" while "hateful" does not. -/
theorem token_matching_exact (words : List String) (content : String) :
    ((flagged_words_in_message words content).isEmpty = false ↔
      ∃ t ∈ tokens content, t ∈ words) ∧
    flagged_words_in_message ["hate"] "I HATE you" = ["hate"] ∧
    flagged_words_in_message ["hate"] "hateful" = [] := by
  refine ⟨?_, by decide, by decide⟩
  unfold flagged_words_in_message
  rw [List.isEmpty_eq_false, ne_eq, List.filter_eq_nil_iff]
  push_neg
  constructor
  · rintro ⟨w, hw, ht⟩
    exact ⟨w, by simpa using ht, hw⟩
  · rintro ⟨t, ht, hw⟩
    exact ⟨t, hw, by simpa using ht⟩

/-- C5: a flagged-word rule applies iff it is global-scoped, or it is
channel-scoped and its channel equals the message channel; a global rule
applies identically in every channel, and a channel-scoped rule bound to
channel 1 does not apply in channel 2. -/
theorem rule_scope_applicability (config : FlaggedConfig) (chan : Nat)
    (ch : Option Nat) (w : List String) (m : Option String) (c1 c2 : Nat) :
    (ruleApplicable config chan = true ↔
      (config.sync_global = true ∨
        (config.sync_global = false ∧ config.channel = some chan))) ∧
    ruleApplicable (FlaggedConfig.mk true ch w m) c1 =
      ruleApplicable (FlaggedConfig.mk true ch w m) c2 ∧
    ruleApplicable (FlaggedConfig.mk false (some 1) w m) 2 = false := by
  refine ⟨?_, rfl, by simp [ruleApplicable]⟩
  obtain ⟨g, cch, ww, mm⟩ := config
  cases g <;> cases cch <;> simp [ruleApplicable]

/-- C6: a successful classification is offensive iff the response text,
stripped of surrounding whitespace, begins with "yes" case-insensitively;
empty or unrelated responses yield not-offensive, and a failed call
yields not-offensive. -/
theorem classifier_yes_parsing (text : String) (e : Unit) :
    (is_offensive_content (.ok text) = true ↔ beginsWithYesCI (pyTrim text.toList)) ∧
    is_offensive_content (.error e) = false ∧
    is_offensive_content (.ok "") = false ∧
    is_offensive_content (.ok "Probably not") = false ∧
    is_offensive_content (.ok "  YES, clearly.") = true := by
  refine ⟨?_, rfl, by decide, by decide, by decide⟩
  unfold is_offensive_content
  have hy : "yes".toList = 'y' :: 'e' :: 's' :: [] := rfl
  rw [hy]
  exact startsWithL_yes_iff _

/-- C7: past the fast-reject step, with auto-moderation disabled (or no
config entry, via the false default) and no applicable matching
flagged-word rule, the decision is NoAction. -/
theorem disabled_no_match_no_action (env : Env) (resp : ClassifierResponse) (msg : Msg)
    (gid : Nat) (hg : msg.guildId = some gid) (hbot : msg.authorIsBot = false)
    (hbl : env.blacklist.contains msg.authorId = false)
    (hen : (env.auto_moderation_config.lookup gid).getD false = false)
    (hfl : flaggedRuleFires env gid msg = false) :
    (on_message env resp msg).decision = Decision.noAction := by
  have hbl2 : msg.authorId ∉ env.blacklist := by simpa using hbl
  have hd := flaggedDecision_noAction_of_not_fires env gid msg hfl
  simp [on_message, hg, hbot, hbl2, hen, hd]

/-- Witness for C7: moderation disabled, rule bound to another channel,
offensive classifier output — still NoAction. -/
theorem disabled_no_match_no_action_witness :
    (on_message (Env.mk [] [(1, FlaggedConfig.mk false (some 2) ["hate"] none)] [(1, false)])
        (.ok "yes") (Msg.mk 5 false "@u" (some 1) 7 "hate you")).decision =
      Decision.noAction :=
  disabled_no_match_no_action
    (Env.mk [] [(1, FlaggedConfig.mk false (some 2) ["hate"] none)] [(1, false)])
    (.ok "yes") (Msg.mk 5 false "@u" (some 1) 7 "hate you") 1
    rfl rfl (by decide) (by decide) (by decide)

/-- C8: executing a DeleteAndWarn, a permission-denied deletion posts a
user-visible notice (the fixed could-not-delete text in the
auto-moderation branch, the plain response message without the
auto-delete framing in the flagged branch), while a missing-target
deletion is silently ignored with no sends. -/
theorem delete_failure_handling (mention responseMessage : String) :
    execAutoModDelete mention DeleteOutcome.forbidden =
      [SendAction.mk (mention ++ " Offensive content detected but could not delete.") false] ∧
    execAutoModDelete mention DeleteOutcome.notFound = [] ∧
    execFlaggedDelete responseMessage DeleteOutcome.forbidden =
      [SendAction.mk responseMessage false] ∧
    execFlaggedDelete responseMessage DeleteOutcome.notFound = [] :=
  ⟨rfl, rfl, rfl, rfl⟩

/-- C9: the pipeline is deterministic: identical environment, classifier
outcome, and message produce an identical run, with no hidden state. -/
theorem evaluate_deterministic (env1 env2 : Env) (r1 r2 : ClassifierResponse) (m1 m2 : Msg)
    (henv : env1 = env2) (hr : r1 = r2) (hm : m1 = m2) :
    on_message env1 r1 m1 = on_message env2 r2 m2 := by
  subst henv; subst hr; subst hm; rfl

/-- Witness for C9: two identical concrete evaluations coincide. -/
theorem evaluate_deterministic_witness :
    on_message (Env.mk [] [] []) (.ok "yes") (Msg.mk 5 false "@u" (some 1) 7 "hi") =
      on_message (Env.mk [] [] []) (.ok "yes") (Msg.mk 5 false "@u" (some 1) 7 "hi") :=
  evaluate_deterministic (Env.mk [] [] []) (Env.mk [] [] []) (.ok "yes") (.ok "yes")
    (Msg.mk 5 false "@u" (some 1) 7 "hi") (Msg.mk 5 false "@u" (some 1) 7 "hi") rfl rfl rfl

/-- C10: command processing runs iff the message is not fast-rejected and
the moderation decision is NoAction: fast-rejected messages and
DeleteAndWarn outcomes never reach the command processor. -/
theorem process_commands_iff (env : Env) (resp : ClassifierResponse) (msg : Msg) :
    (on_message env resp msg).processCommands = true ↔
      (fastReject env msg = false ∧
        (on_message env resp msg).decision = Decision.noAction) := by
  cases hg : msg.guildId with
  | none => simp [on_message, fastReject, hg]
  | some gid =>
    cases hbot : msg.authorIsBot <;> cases hbl : env.blacklist.contains msg.authorId
    · simp only [on_message, fastReject, hg, hbot, hbl]
      cases hmo : ((env.auto_moderation_config.lookup gid).getD false
          && is_offensive_content resp)
      · cases hd : flaggedDecision env gid msg <;> simp [hd]
      · simp
    · have hmem : msg.authorId ∈ env.blacklist := by simpa using hbl
      simp [on_message, fastReject, hg, hbot, hbl, hmem]
    · simp [on_message, fastReject, hg, hbot, hbl]
    · simp [on_message, fastReject, hg, hbot, hbl]

end Plastic
